import Mathlib

/- Verification development for the resilience layer of the ur-agent-frontend
repository: the retry engine (src/server/utils/retry.ts), the graceful
degradation service (graceful-degradation.ts), the client WebSocket
connection manager (src/client/services/websocket-service.ts), and the
circuit breaker service (circuit-breaker-service.ts). Each definition is a
shallow embedding of the corresponding source function; asynchronous
operations are modelled by supplying the settled outcome of each underlying
invocation, and timers by explicit events. -/

set_option maxHeartbeats 1000000

instance exceptDecEq {ε α : Type} [DecidableEq ε] [DecidableEq α] :
    DecidableEq (Except ε α) := fun x y =>
  match x, y with
  | .ok a, .ok b =>
    if h : a = b then .isTrue (by rw [h]) else .isFalse (by simp [h])
  | .error a, .error b =>
    if h : a = b then .isTrue (by rw [h]) else .isFalse (by simp [h])
  | .ok _, .error _ => .isFalse (by simp)
  | .error _, .ok _ => .isFalse (by simp)

namespace ServerRetry

/-- Errors flowing through the server retry utility. The source distinguishes
exactly the classes RetryableError and NonRetryableError (checked with
instanceof) from every other Error; the latter are collapsed into the
plain constructor, keeping the message, which is all withRetry reads. -/
inductive SrvError where
  | plain (message : String)
  | retryableTagged (message : String) (code : String) (statusCode : Nat)
  | nonRetryableTagged (message : String) (code : String) (statusCode : Nat)
deriving DecidableEq

/-- The message field of an error (Error.message in the source). -/
def SrvError.message : SrvError → String
  | .plain m => m
  | .retryableTagged m _ _ => m
  | .nonRetryableTagged m _ _ => m

/-- Whether the error is an instance of RetryableError or NonRetryableError,
the test made by the source before re-wrapping a terminal failure. -/
def isTagged : SrvError → Bool
  | .plain _ => false
  | .retryableTagged _ _ _ => true
  | .nonRetryableTagged _ _ _ => true

/-- RetryConfig from src/server/config/retry.ts. The retryCondition field is
the error-classification predicate; onFailedAttempt is omitted because it has
no effect on control flow or results. -/
structure RetryConfig where
  maxAttempts : Nat
  baseDelay : Nat
  maxDelay : Nat
  jitter : Bool
  retryCondition : SrvError → Bool

/-- The terminal-failure wrapping step of withRetry: an error that is already
a RetryableError or NonRetryableError is rethrown unchanged; otherwise it is
wrapped according to retryCondition, exactly as in the source. -/
def wrapTerminal (cfg : RetryConfig) (lastError : SrvError) : SrvError :=
  match lastError with
  | .plain m =>
    if cfg.retryCondition (.plain m) then
      .retryableTagged m "RETRYABLE_ERROR" 500
    else
      .nonRetryableTagged m "NON_RETRYABLE_ERROR" 400
  | e => e

/-- The attempt loop of withRetry (src/server/utils/retry.ts). The operation
is modelled by the settled outcome of its i-th invocation (1-indexed).
The fuel argument counts the loop iterations still allowed; the zero-fuel
case models the trailing rethrow after the loop, which is unreachable
whenever maxAttempts is at least 1. The second component of the result is
the number of times the operation was invoked. Delays only suspend, so they
do not appear in the value-level model. -/
def withRetryLoop {α : Type} (cfg : RetryConfig) (op : Nat → Except SrvError α) :
    Nat → Nat → Except SrvError α × Nat
  | _, 0 => (.error (.plain "unreachable"), 0)
  | attempt, fuel + 1 =>
    match op attempt with
    | .ok r => (.ok r, 1)
    | .error e =>
      if attempt = cfg.maxAttempts ∨ cfg.retryCondition e = false then
        (.error (wrapTerminal cfg e), 1)
      else
        let rest := withRetryLoop cfg op (attempt + 1) fuel
        (rest.1, rest.2 + 1)

/-- withRetry from src/server/utils/retry.ts, applied to one argument tuple:
runs the attempt loop from attempt 1 with maxAttempts iterations available. -/
def withRetry {α : Type} (cfg : RetryConfig) (op : Nat → Except SrvError α) :
    Except SrvError α × Nat :=
  withRetryLoop cfg op 1 cfg.maxAttempts

/-- Operations used as concrete inputs: one that fails once with a retryable
error and then succeeds. -/
def opOnceFail : Nat → Except SrvError Nat :=
  fun i => if i = 1 then .error (.plain "transient") else .ok 7

/-- An operation that fails on every invocation with an untagged error. -/
def opAlwaysFail : Nat → Except SrvError Nat :=
  fun _ => .error (.plain "down")

/-- A concrete retry policy with three attempts and a classify-everything-
retryable condition. -/
def cfgA : RetryConfig :=
  { maxAttempts := 3, baseDelay := 100, maxDelay := 1000, jitter := false,
    retryCondition := fun _ => true }

end ServerRetry

namespace Degradation

/-- The three degradation levels of the string union type in
graceful-degradation.ts. -/
inductive LevelTag where
  | full
  | limited
  | offline
deriving DecidableEq

/-- Results of the fallback actions held in a DegradationLevel. The source
stores zero-argument functions; each is modelled by the value it settles
to, which is what the claims inspect. -/
inductive FallbackOutcome where
  | queued (status : String) (message : String)
  | cachedMessages (msgs : List String)
  | offlinePayload (status : String) (message : String)
deriving DecidableEq

/-- queueMessageForLater from graceful-degradation.ts: resolves to a queued
acknowledgement payload. -/
def queueMessageForLater : FallbackOutcome :=
  .queued "queued"
    "Your message has been queued and will be processed when services are restored."

/-- getCachedMessages from graceful-degradation.ts: resolves to the empty
list of cached messages. -/
def getCachedMessages : FallbackOutcome :=
  .cachedMessages []

/-- showOfflineMessage from graceful-degradation.ts: the fixed service
offline payload. -/
def showOfflineMessage : FallbackOutcome :=
  .offlinePayload "offline"
    "The service is currently offline for maintenance. Please try again later."

/-- DegradationLevel from graceful-degradation.ts. -/
structure DegradationLevel where
  level : LevelTag
  description : String
  features : List String
  fallbackActions : List (String × FallbackOutcome)
deriving DecidableEq

/-- The full level object, as written identically in the constructor and in
the first branch of assessSystemHealth. -/
def fullLevel : DegradationLevel :=
  { level := .full
    description := "All services operational"
    features := ["websocket", "ai-agent", "session-storage", "real-time"]
    fallbackActions := [] }

/-- The limited level object built by the second branch of
assessSystemHealth. -/
def limitedLevel : DegradationLevel :=
  { level := .limited
    description := "Limited functionality - some services unavailable"
    features := ["session-storage", "message-queue"]
    fallbackActions :=
      [("sendMessage", queueMessageForLater), ("getMessages", getCachedMessages)] }

/-- The offline level object built by the final branch of
assessSystemHealth. -/
def offlineLevel : DegradationLevel :=
  { level := .offline
    description := "System offline - maintenance mode"
    features := ["static-content"]
    fallbackActions :=
      [("sendMessage", showOfflineMessage), ("getMessages", showOfflineMessage)] }

/-- A registered health probe, modelled by the settled outcome of its
invocation: ok b when the promise resolves to b, error m when it throws. -/
def HealthProbe : Type := Except String Bool

/-- GracefulDegradationService state: the held current level and the
registry of health checks in registration order (a JS Map preserves
insertion order). -/
structure GracefulDegradationService where
  currentLevel : DegradationLevel
  healthChecks : List (String × HealthProbe)

/-- The constructor of GracefulDegradationService: current level starts at
the full level object, no health checks registered. -/
def initService : GracefulDegradationService :=
  { currentLevel := fullLevel, healthChecks := [] }

/-- registerHealthCheck: Map.set on the registry (replace in place when the
name is present, append otherwise). -/
def registerHealthCheck (svc : GracefulDegradationService) (name : String)
    (check : HealthProbe) : GracefulDegradationService :=
  if svc.healthChecks.any (fun p => p.1 = name) then
    { svc with healthChecks :=
        svc.healthChecks.map (fun p => if p.1 = name then (name, check) else p) }
  else
    { svc with healthChecks := svc.healthChecks ++ [(name, check)] }

/-- The recorded value of one probe: the resolved boolean, or false when the
probe throws (the catch branch of checkAllServices). -/
def probeRecorded : HealthProbe → Bool
  | .ok b => b
  | .error _ => false

/-- checkAllServices from graceful-degradation.ts: builds the results map by
running every registered check in a try/catch that records false on a
throw. The function is total: no probe outcome can make it fail. -/
def checkAllServices (svc : GracefulDegradationService) : List (String × Bool) :=
  svc.healthChecks.map (fun p => (p.1, probeRecorded p.2))

/-- Property access healthStatus.name on the results object: a key that is
absent reads as undefined, which is falsy in the conditions of
assessSystemHealth. -/
def healthGet (m : List (String × Bool)) (k : String) : Bool :=
  (m.lookup k).getD false

/-- The decision table of assessSystemHealth evaluated on a health map. -/
def assessLevel (h : List (String × Bool)) : DegradationLevel :=
  if healthGet h "redis" && healthGet h "websocket" && healthGet h "aiAgent" then
    fullLevel
  else if healthGet h "redis" && (healthGet h "websocket" || healthGet h "aiAgent") then
    limitedLevel
  else
    offlineLevel

/-- assessSystemHealth from graceful-degradation.ts: runs all checks,
computes the complete new level, stores it, and returns it. -/
def assessSystemHealth (svc : GracefulDegradationService) :
    GracefulDegradationService × DegradationLevel :=
  let lvl := assessLevel (checkAllServices svc)
  ({ svc with currentLevel := lvl }, lvl)

/-- getCurrentLevel from graceful-degradation.ts. -/
def getCurrentLevel (svc : GracefulDegradationService) : DegradationLevel :=
  svc.currentLevel

/-- canUseFeature from graceful-degradation.ts. -/
def canUseFeature (svc : GracefulDegradationService) (feature : String) : Bool :=
  svc.currentLevel.features.contains feature

/-- getFallbackAction from graceful-degradation.ts. -/
def getFallbackAction (svc : GracefulDegradationService) (action : String) :
    Option FallbackOutcome :=
  svc.currentLevel.fallbackActions.lookup action

/-- The service as configured by the resilience plugin: probes registered
under the names redis, websocket and aiAgent; here the websocket probe
throws and the other two resolve to true. -/
def svcLimited : GracefulDegradationService :=
  registerHealthCheck
    (registerHealthCheck
      (registerHealthCheck initService "redis" (.ok true))
      "websocket" (.error "fetch failed"))
    "aiAgent" (.ok true)

end Degradation

namespace WS

/-- Connection status union type from src/client/types/websocket.ts. -/
inductive ConnStatus where
  | connecting
  | connected
  | disconnected
  | errored
  | reconnecting
deriving DecidableEq

/-- WebSocketConnection from src/client/types/websocket.ts (the id and
lastActivity fields are omitted: no claim reads them). -/
structure WebSocketConnection where
  sessionId : String
  userId : String
  status : ConnStatus
  retryCount : Nat
deriving DecidableEq

/-- WebSocketConfig from src/client/types/websocket.ts. -/
structure WebSocketConfig where
  url : String
  reconnectAttempts : Nat
  reconnectDelay : Nat
  heartbeatInterval : Nat
  timeout : Nat
deriving DecidableEq

/-- Events the service emits through its EventEmitter interface. -/
inductive Emitted where
  | connectedEv
  | disconnectedEv
  | errorEv
  | maxRetriesReached
deriving DecidableEq

/-- ChatServiceError from src/client/types/errors.ts: name, message, code,
statusCode and the isRetryable classification flag. -/
structure ChatServiceError where
  name : String
  message : String
  code : String
  statusCode : Nat
  isRetryable : Bool
deriving DecidableEq

/-- WebSocketNotConnectedError from src/client/types/errors.ts: its
constructor passes isRetryable = true to the ChatServiceError base. -/
def WebSocketNotConnectedError : ChatServiceError :=
  { name := "WebSocketNotConnectedError"
    message := "WebSocket is not connected"
    code := "WEBSOCKET_NOT_CONNECTED"
    statusCode := 503
    isRetryable := true }

/-- State of a WebSocketService instance
(src/client/services/websocket-service.ts). wsAttached models
this.ws not being null; socketLive records that a created underlying socket
has not yet delivered its close event (the browser fires close exactly once
per socket, including after an explicit close() call, and the attached
onclose handler keeps referencing the service even after this.ws is
nulled). The timers hold the scheduled delay; emitted and sent log the
events emitted and the payloads written to the socket. -/
structure WebSocketService where
  config : WebSocketConfig
  connection : Option WebSocketConnection
  wsAttached : Bool
  socketLive : Bool
  reconnectTimer : Option Nat
  heartbeatTimer : Bool
  emitted : List Emitted
  sent : List String
deriving DecidableEq

/-- The WebSocketService constructor: stores the config, everything else
empty. -/
def create (cfg : WebSocketConfig) : WebSocketService :=
  { config := cfg
    connection := none
    wsAttached := false
    socketLive := false
    reconnectTimer := none
    heartbeatTimer := false
    emitted := []
    sent := [] }

/-- Appends an emitted event to the log. -/
def emitEv (s : WebSocketService) (e : Emitted) : WebSocketService :=
  { s with emitted := s.emitted ++ [e] }

/-- stopHeartbeat: clears the heartbeat interval handle. -/
def stopHeartbeat (s : WebSocketService) : WebSocketService :=
  { s with heartbeatTimer := false }

/-- startHeartbeat: arms the heartbeat interval. -/
def startHeartbeat (s : WebSocketService) : WebSocketService :=
  { s with heartbeatTimer := true }

/-- The synchronous prefix of establishConnection: replaces this.connection
with a fresh record in status connecting and retryCount 0, creates the
socket and attaches handlers. The open, error and close outcomes arrive
later as transport events. -/
def establishConnection (s : WebSocketService) (sessionId userId : String) :
    WebSocketService :=
  { s with
    connection := some
      { sessionId := sessionId, userId := userId
        status := .connecting, retryCount := 0 }
    wsAttached := true
    socketLive := true }

/-- handleReconnection from websocket-service.ts: with no connection or
retryCount at least reconnectAttempts it emits maxRetriesReached and
schedules nothing; otherwise it moves to reconnecting, increments
retryCount, and schedules a reconnect after reconnectDelay times the
incremented retryCount. -/
def handleReconnection (s : WebSocketService) : WebSocketService :=
  match s.connection with
  | none => emitEv s .maxRetriesReached
  | some c =>
    if s.config.reconnectAttempts ≤ c.retryCount then
      emitEv s .maxRetriesReached
    else
      { s with
        connection := some
          { c with status := .reconnecting, retryCount := c.retryCount + 1 }
        reconnectTimer := some (s.config.reconnectDelay * (c.retryCount + 1)) }

/-- The ws.onopen handler: status connected, retryCount reset to 0,
heartbeat started, connected event emitted. -/
def onOpen (s : WebSocketService) : WebSocketService :=
  match s.connection with
  | none => s
  | some c =>
    emitEv
      (startHeartbeat
        { s with connection := some { c with status := .connected, retryCount := 0 } })
      .connectedEv

/-- The ws.onclose handler installed by setupEventHandlers: status
disconnected, heartbeat stopped, disconnected event emitted, then
handleReconnection. Fires once per live socket. -/
def onClose (s : WebSocketService) : WebSocketService :=
  if s.socketLive then
    match s.connection with
    | none => s
    | some c =>
      handleReconnection
        (emitEv
          (stopHeartbeat
            { s with
              socketLive := false
              connection := some { c with status := .disconnected } })
          .disconnectedEv)
  else s

/-- The reconnect timer callback: calls connect, whose first underlying
attempt runs establishConnection for the stored session. -/
def reconnectTimerFire (s : WebSocketService) : WebSocketService :=
  match s.reconnectTimer, s.connection with
  | some _, some c =>
    establishConnection { s with reconnectTimer := none } c.sessionId c.userId
  | _, _ => s

/-- sendMessage from websocket-service.ts: with no socket or a status other
than connected it throws WebSocketNotConnectedError before any send;
otherwise performSend writes the query payload to the socket. Returns the
state after the call together with the outcome. -/
def sendMessage (s : WebSocketService) (content : String) :
    WebSocketService × Except ChatServiceError Unit :=
  if s.wsAttached = false ∨ s.connection.map (fun c => c.status) ≠ some .connected then
    (s, .error WebSocketNotConnectedError)
  else
    ({ s with sent := s.sent ++ [content] }, .ok ())

/-- disconnect from websocket-service.ts: clears the reconnect timer, stops
the heartbeat, closes and drops the socket (whose close event will still be
delivered to the attached handler), and marks the connection
disconnected. -/
def disconnect (s : WebSocketService) : WebSocketService :=
  let s1 := stopHeartbeat { s with reconnectTimer := none }
  { s1 with
    wsAttached := false
    connection := s1.connection.map (fun c => { c with status := .disconnected }) }

/-- The inputs that drive a WebSocketService instance: an invocation of one
underlying connection attempt, the transport open and close events of the
current socket, the reconnect timer firing, and an explicit disconnect
call. -/
inductive WsEvent where
  | apiConnect (sessionId userId : String)
  | transportOpen
  | transportClose
  | timerFire
  | apiDisconnect
deriving DecidableEq

/-- One step of the event-loop model. -/
def step (s : WebSocketService) : WsEvent → WebSocketService
  | .apiConnect sessionId userId => establishConnection s sessionId userId
  | .transportOpen => onOpen s
  | .transportClose => onClose s
  | .timerFire => reconnectTimerFire s
  | .apiDisconnect => disconnect s

/-- Runs a sequence of events from a state. -/
def run (s : WebSocketService) (es : List WsEvent) : WebSocketService :=
  es.foldl step s

/-- The configuration the nes-websocket plugin would use with three
reconnect attempts allowed. -/
def cfgWs : WebSocketConfig :=
  { url := "ws://localhost:8080/ws", reconnectAttempts := 3
    reconnectDelay := 1000, heartbeatInterval := 30000, timeout := 2000 }

/-- The exact configuration of the nes-websocket plugin: a single reconnect
attempt allowed. -/
def cfgWs1 : WebSocketConfig :=
  { url := "ws://localhost:8080/ws", reconnectAttempts := 1
    reconnectDelay := 1000, heartbeatInterval := 30000, timeout := 2000 }

/-- Trace for C4: connect successfully, suffer an unsolicited close, let the
scheduled reconnect attempt start and fail with a close. -/
def traceTwoReconnects : List WsEvent :=
  [.apiConnect "s" "u", .transportOpen, .transportClose, .timerFire,
   .transportClose]

/-- Trace for C5: connect successfully, then an unsolicited close followed
by three failing reconnect attempts, each scheduling the next. -/
def traceFourFailures : List WsEvent :=
  [.apiConnect "s" "u", .transportOpen, .transportClose,
   .timerFire, .transportClose,
   .timerFire, .transportClose,
   .timerFire, .transportClose]

/-- Trace for C9: connect successfully, call disconnect, then the close
event that ws.close() makes the socket fire reaches the still-attached
onclose handler. -/
def traceDisconnectThenClose : List WsEvent :=
  [.apiConnect "s" "u", .transportOpen, .apiDisconnect, .transportClose]

end WS

namespace CB

/-- The three states of the breaker state machine. -/
inductive BreakerState where
  | closed
  | opened
  | halfOpen
deriving DecidableEq

/-- CircuitBreakerConfig from circuit-breaker-service.ts; volumeThreshold is
optional there. -/
structure CircuitBreakerConfig where
  timeout : Nat
  errorThreshold : Nat
  resetTimeout : Nat
  name : String
  volumeThreshold : Option Nat
deriving DecidableEq

/-- Modelled from the spec: the breaker instances returned by
CircuitBreakerService.createBreaker are opossum CircuitBreaker objects, and
the opossum library is a third-party dependency absent from the repository
(only its type declarations exist under src/types/opossum.d.ts). This state
follows the spec: Closed tallies successes and failures over a window
(modelled as the counts since the last reset rather than a wall-clock
rolling window); opCalls counts the invocations of the wrapped function;
fires, successes, failures and rejects mirror the stats object. -/
structure Breaker where
  name : String
  timeout : Nat
  errorThresholdPercentage : Nat
  resetTimeout : Nat
  volumeThreshold : Nat
  state : BreakerState
  fires : Nat
  successes : Nat
  failures : Nat
  rejects : Nat
  opCalls : Nat
  windowCalls : Nat
  windowFailures : Nat
deriving DecidableEq

/-- The outcome of one fire call: the operation resolved, the operation
failed, or the breaker rejected the call with the typed breaker-open
error. -/
inductive FireResult where
  | ok
  | failed (message : String)
  | rejectedOpen
deriving DecidableEq

/-- CircuitBreakerService.createBreaker from circuit-breaker-service.ts:
builds an opossum breaker from the config, defaulting volumeThreshold to 10,
starting Closed with zeroed stats. -/
def createBreaker (cfg : CircuitBreakerConfig) : Breaker :=
  { name := cfg.name
    timeout := cfg.timeout
    errorThresholdPercentage := cfg.errorThreshold
    resetTimeout := cfg.resetTimeout
    volumeThreshold := cfg.volumeThreshold.getD 10
    state := .closed
    fires := 0
    successes := 0
    failures := 0
    rejects := 0
    opCalls := 0
    windowCalls := 0
    windowFailures := 0 }

/-- The breakers registry of CircuitBreakerService; createBreaker also
stores the new breaker under its configured name. -/
structure CircuitBreakerService where
  breakers : List (String × Breaker)

/-- createBreaker including its registry side effect (breakers.set). -/
def serviceCreateBreaker (svc : CircuitBreakerService)
    (cfg : CircuitBreakerConfig) : CircuitBreakerService × Breaker :=
  let b := createBreaker cfg
  ({ breakers :=
      if svc.breakers.any (fun p => p.1 = cfg.name) then
        svc.breakers.map (fun p => if p.1 = cfg.name then (cfg.name, b) else p)
      else
        svc.breakers ++ [(cfg.name, b)] }, b)

/-- Modelled from the spec: fire of the opossum breaker. While Open every
call is rejected immediately with the typed breaker-open error and the
wrapped operation is not invoked. While Closed the operation runs (its
settled outcome is the op argument; an operation exceeding timeout counts
as a failure, modelled as an error outcome); once the window holds at
least volumeThreshold calls with a failure percentage at or above
errorThresholdPercentage, the breaker transitions to Open. While Half-Open
the one probe call runs the operation: success closes the breaker and
resets the window, failure re-opens it. -/
def fire (b : Breaker) (op : Except String Unit) : Breaker × FireResult :=
  match b.state with
  | .opened =>
    ({ b with fires := b.fires + 1, rejects := b.rejects + 1 }, .rejectedOpen)
  | .halfOpen =>
    match op with
    | .ok _ =>
      ({ b with
          state := .closed
          fires := b.fires + 1
          successes := b.successes + 1
          opCalls := b.opCalls + 1
          windowCalls := 0
          windowFailures := 0 }, .ok)
    | .error m =>
      ({ b with
          state := .opened
          fires := b.fires + 1
          failures := b.failures + 1
          opCalls := b.opCalls + 1 }, .failed m)
  | .closed =>
    match op with
    | .ok _ =>
      ({ b with
          fires := b.fires + 1
          successes := b.successes + 1
          opCalls := b.opCalls + 1
          windowCalls := b.windowCalls + 1 }, .ok)
    | .error m =>
      let wc := b.windowCalls + 1
      let wf := b.windowFailures + 1
      let tripped := b.volumeThreshold ≤ wc ∧
        b.errorThresholdPercentage * wc ≤ wf * 100
      ({ b with
          state := if tripped then .opened else .closed
          fires := b.fires + 1
          failures := b.failures + 1
          opCalls := b.opCalls + 1
          windowCalls := wc
          windowFailures := wf }, .failed m)

/-- Modelled from the spec: when the resetTimeout timer armed at the Open
transition elapses, the breaker moves to Half-Open. -/
def resetTimerFire (b : Breaker) : Breaker :=
  match b.state with
  | .opened => { b with state := .halfOpen }
  | _ => b

/-- The breakers reachable from a starting breaker through fire calls and
reset-timer expirations. -/
inductive BreakerReach : Breaker → Breaker → Prop where
  | refl (b : Breaker) : BreakerReach b b
  | fireStep (a b : Breaker) (op : Except String Unit) :
      BreakerReach a b → BreakerReach a (fire b op).1
  | timerStep (a b : Breaker) :
      BreakerReach a b → BreakerReach a (resetTimerFire b)

/-- The concrete breaker configuration of the scenario in the spec, with a
volume threshold of 1 so that a single failure trips the breaker. -/
def cfgCB : CircuitBreakerConfig :=
  { timeout := 1000, errorThreshold := 50, resetTimeout := 1000
    name := "ai-agent", volumeThreshold := some 1 }

/-- A breaker created by the service and tripped Open by one failing call. -/
def openedBreaker : Breaker :=
  (fire (serviceCreateBreaker { breakers := [] } cfgCB).2 (.error "boom")).1

end CB

namespace ServerRetry

theorem wrapTerminal_isTagged (cfg : RetryConfig) (e : SrvError) :
    isTagged (wrapTerminal cfg e) = true := by
  cases e with
  | plain m =>
    rw [wrapTerminal]
    split <;> rfl
  | retryableTagged m c s => rfl
  | nonRetryableTagged m c s => rfl

theorem wrapTerminal_tagged_id (cfg : RetryConfig) (e : SrvError)
    (h : isTagged e = true) : wrapTerminal cfg e = e := by
  cases e with
  | plain m => simp [isTagged] at h
  | retryableTagged m c s => rfl
  | nonRetryableTagged m c s => rfl

theorem withRetryLoop_ok {α : Type} (cfg : RetryConfig) (op : Nat → Except SrvError α)
    (v : α) :
    ∀ (k attempt fuel : Nat), k < fuel → attempt + fuel = cfg.maxAttempts + 1 →
    (∀ i, i < k → ∃ e, op (attempt + i) = .error e ∧ cfg.retryCondition e = true) →
    op (attempt + k) = .ok v →
    withRetryLoop cfg op attempt fuel = (.ok v, k + 1) := by
  intro k
  induction k with
  | zero =>
    intro attempt fuel hk _ _ hok
    obtain ⟨f, rfl⟩ : ∃ f, fuel = f + 1 := ⟨fuel - 1, by omega⟩
    simp only [Nat.add_zero] at hok
    simp [withRetryLoop, hok]
  | succ k ih =>
    intro attempt fuel hk hsum hfails hok
    obtain ⟨f, rfl⟩ : ∃ f, fuel = f + 1 := ⟨fuel - 1, by omega⟩
    obtain ⟨e, he, hce⟩ := hfails 0 (Nat.succ_pos k)
    simp only [Nat.add_zero] at he
    have hcond : ¬ (attempt = cfg.maxAttempts ∨ cfg.retryCondition e = false) := by
      rintro (h | h)
      · omega
      · rw [hce] at h; simp at h
    have hshift : ∀ i, i < k →
        ∃ e2, op (attempt + 1 + i) = .error e2 ∧ cfg.retryCondition e2 = true := by
      intro i hi
      obtain ⟨e2, he2, hce2⟩ := hfails (i + 1) (by omega)
      refine ⟨e2, ?_, hce2⟩
      have : attempt + 1 + i = attempt + (i + 1) := by omega
      rw [this]; exact he2
    have hok2 : op (attempt + 1 + k) = .ok v := by
      have : attempt + 1 + k = attempt + (k + 1) := by omega
      rw [this]; exact hok
    have hrec := ih (attempt + 1) f (by omega) (by omega) hshift hok2
    simp [withRetryLoop, he, if_neg hcond, hrec]

theorem withRetryLoop_allfail {α : Type} (cfg : RetryConfig)
    (op : Nat → Except SrvError α)
    (hall : ∀ i, ∃ e, op i = .error e ∧ cfg.retryCondition e = true) :
    ∀ (fuel attempt : Nat), 1 ≤ fuel → attempt + fuel = cfg.maxAttempts + 1 →
    ∃ e, op cfg.maxAttempts = .error e ∧
      withRetryLoop cfg op attempt fuel = (.error (wrapTerminal cfg e), fuel) := by
  intro fuel
  induction fuel with
  | zero => intro attempt h1 _; omega
  | succ f ihf =>
    intro attempt _ hsum
    obtain ⟨e, he, hce⟩ := hall attempt
    by_cases hf : f = 0
    · subst hf
      have hmax : attempt = cfg.maxAttempts := by omega
      subst hmax
      refine ⟨e, he, ?_⟩
      simp [withRetryLoop, he]
    · have hcond : ¬ (attempt = cfg.maxAttempts ∨ cfg.retryCondition e = false) := by
        rintro (h | h)
        · omega
        · rw [hce] at h; simp at h
      obtain ⟨e2, he2, hrec⟩ := ihf (attempt + 1) (by omega) (by omega)
      refine ⟨e2, he2, ?_⟩
      simp [withRetryLoop, he, if_neg hcond, hrec]

theorem withRetryLoop_error_shape {α : Type} (cfg : RetryConfig)
    (op : Nat → Except SrvError α) :
    ∀ (fuel attempt : Nat) (e : SrvError), 1 ≤ fuel →
    attempt + fuel = cfg.maxAttempts + 1 →
    (withRetryLoop cfg op attempt fuel).1 = .error e →
    ∃ i e0, attempt ≤ i ∧ i ≤ cfg.maxAttempts ∧ op i = .error e0 ∧
      (i = cfg.maxAttempts ∨ cfg.retryCondition e0 = false) ∧
      e = wrapTerminal cfg e0 := by
  intro fuel
  induction fuel with
  | zero => intro attempt e h1 _; omega
  | succ f ihf =>
    intro attempt e _ hsum herr
    cases hop : op attempt with
    | ok v => simp [withRetryLoop, hop] at herr
    | error e0 =>
      by_cases hc : attempt = cfg.maxAttempts ∨ cfg.retryCondition e0 = false
      · have hres : withRetryLoop cfg op attempt (f + 1) =
            (.error (wrapTerminal cfg e0), 1) := by
          simp [withRetryLoop, hop, if_pos hc]
        rw [hres] at herr
        exact ⟨attempt, e0, Nat.le_refl _, by omega, hop, hc,
          (Except.error.inj herr).symm⟩
      · have hne : attempt ≠ cfg.maxAttempts := fun h => hc (Or.inl h)
        have herr2 : (withRetryLoop cfg op (attempt + 1) f).1 = .error e := by
          have hres : withRetryLoop cfg op attempt (f + 1) =
              ((withRetryLoop cfg op (attempt + 1) f).1,
               (withRetryLoop cfg op (attempt + 1) f).2 + 1) := by
            simp [withRetryLoop, hop, if_neg hc]
          rw [hres] at herr
          exact herr
        obtain ⟨i, e0b, hi1, hi2, hop2, hterm, hwrap⟩ :=
          ihf (attempt + 1) e (by omega) (by omega) herr2
        exact ⟨i, e0b, by omega, hi2, hop2, hterm, hwrap⟩

/-- C3: for every retry policy, an operation that fails exactly k times with
retryable errors (k below maxAttempts) and then succeeds makes withRetry
return the success value having invoked the operation exactly k+1 times; and
an operation that always fails with a retryable error is invoked exactly
maxAttempts times, never more, the call ending in failure. -/
theorem withRetry_invocation_counts {α : Type} (cfg : RetryConfig)
    (hmax : 1 ≤ cfg.maxAttempts) :
    (∀ (op : Nat → Except SrvError α) (k : Nat) (v : α), k < cfg.maxAttempts →
      (∀ i, 1 ≤ i → i ≤ k → ∃ e, op i = .error e ∧ cfg.retryCondition e = true) →
      op (k + 1) = .ok v →
      withRetry cfg op = (.ok v, k + 1)) ∧
    (∀ op : Nat → Except SrvError α,
      (∀ i, ∃ e, op i = .error e ∧ cfg.retryCondition e = true) →
      (withRetry cfg op).2 = cfg.maxAttempts ∧
        ∃ e, (withRetry cfg op).1 = .error e) := by
  constructor
  · intro op k v hk hfails hok
    have hfails2 : ∀ i, i < k →
        ∃ e, op (1 + i) = .error e ∧ cfg.retryCondition e = true := by
      intro i hi
      obtain ⟨e, he, hce⟩ := hfails (i + 1) (by omega) (by omega)
      refine ⟨e, ?_, hce⟩
      have : 1 + i = i + 1 := by omega
      rw [this]; exact he
    have hok2 : op (1 + k) = .ok v := by
      have : 1 + k = k + 1 := by omega
      rw [this]; exact hok
    exact withRetryLoop_ok cfg op v k 1 cfg.maxAttempts (by omega) (by omega)
      hfails2 hok2
  · intro op hall
    obtain ⟨e, _, hloop⟩ :=
      withRetryLoop_allfail cfg op hall cfg.maxAttempts 1 hmax (by omega)
    rw [withRetry, hloop]
    exact ⟨rfl, wrapTerminal cfg e, rfl⟩

/-- Witness for C3 at the concrete policy cfgA: an operation failing once
then succeeding is invoked twice and the success value 7 returned; an
operation that always fails retryably is invoked exactly 3 times. -/
theorem withRetry_invocation_counts_witness :
    1 ≤ cfgA.maxAttempts ∧
    withRetry cfgA opOnceFail = (.ok 7, 2) ∧
    (withRetry cfgA opAlwaysFail).2 = cfgA.maxAttempts := by
  refine ⟨by decide, ?_, ?_⟩
  · exact (withRetry_invocation_counts cfgA (by decide)).1 opOnceFail 1 7
      (by decide)
      (fun i h1 h2 => by
        have hi : i = 1 := by omega
        subst hi
        exact ⟨.plain "transient", rfl, rfl⟩)
      rfl
  · exact ((withRetry_invocation_counts cfgA (by decide)).2 opAlwaysFail
      (fun i => ⟨.plain "down", rfl, rfl⟩)).1

/-- C6: whenever withRetry terminates in failure, the surfaced error is one
of the two tagged types; it is the terminal-wrapping of the last raw error,
produced at an attempt that either exhausted maxAttempts or was classified
non-retryable; an error already carrying a RetryableError or
NonRetryableError tag is rethrown unchanged, and an untagged error is tagged
retryable or non-retryable exactly according to the classification. -/
theorem withRetry_failure_classification {α : Type} (cfg : RetryConfig)
    (op : Nat → Except SrvError α) (e : SrvError) (hmax : 1 ≤ cfg.maxAttempts)
    (hfail : (withRetry cfg op).1 = .error e) :
    isTagged e = true ∧
    (∃ i e0, 1 ≤ i ∧ i ≤ cfg.maxAttempts ∧ op i = .error e0 ∧
      (i = cfg.maxAttempts ∨ cfg.retryCondition e0 = false) ∧
      e = wrapTerminal cfg e0) ∧
    (∀ e0, isTagged e0 = true → wrapTerminal cfg e0 = e0) ∧
    (∀ m, wrapTerminal cfg (.plain m) =
      if cfg.retryCondition (.plain m) then
        SrvError.retryableTagged m "RETRYABLE_ERROR" 500
      else
        SrvError.nonRetryableTagged m "NON_RETRYABLE_ERROR" 400) := by
  obtain ⟨i, e0, hi1, hi2, hop, hterm, hwrap⟩ :=
    withRetryLoop_error_shape cfg op cfg.maxAttempts 1 e hmax (by omega) hfail
  refine ⟨hwrap ▸ wrapTerminal_isTagged cfg e0,
    ⟨i, e0, hi1, hi2, hop, hterm, hwrap⟩,
    fun e1 h => wrapTerminal_tagged_id cfg e1 h,
    fun m => rfl⟩

/-- Witness for C6 at the concrete policy cfgA: the always-failing operation
makes withRetry surface a RetryableError-tagged failure, which is tagged. -/
theorem withRetry_failure_classification_witness :
    1 ≤ cfgA.maxAttempts ∧
    (withRetry cfgA opAlwaysFail).1 =
      .error (SrvError.retryableTagged "down" "RETRYABLE_ERROR" 500) ∧
    isTagged (SrvError.retryableTagged "down" "RETRYABLE_ERROR" 500) = true := by
  refine ⟨by decide, rfl, ?_⟩
  exact (withRetry_failure_classification cfgA opAlwaysFail
    (SrvError.retryableTagged "down" "RETRYABLE_ERROR" 500)
    (by decide) rfl).1

end ServerRetry

namespace Degradation

theorem svcLimited_healthChecks :
    svcLimited.healthChecks =
      [("redis", (Except.ok true : HealthProbe)),
       ("websocket", (Except.error "fetch failed" : HealthProbe)),
       ("aiAgent", (Except.ok true : HealthProbe))] := rfl

/-- C2: the decision table of assessSystemHealth over the health map it
reads. All three dependencies healthy gives the full level; the persistence
probe (redis) healthy together with at least one of the transport
(websocket) and agent (aiAgent) probes, short of all three, gives the
limited level with features session-storage (the persistence feature) and
message-queue and fallback actions registered for sendMessage (queue for
later) and getMessages (cached, empty list); anything else gives the
offline level. -/
theorem assessSystemHealth_decision_table (svc : GracefulDegradationService) :
    ((healthGet (checkAllServices svc) "redis" = true ∧
      healthGet (checkAllServices svc) "websocket" = true ∧
      healthGet (checkAllServices svc) "aiAgent" = true) →
      (assessSystemHealth svc).2 = fullLevel) ∧
    ((healthGet (checkAllServices svc) "redis" = true ∧
      (healthGet (checkAllServices svc) "websocket" = true ∨
       healthGet (checkAllServices svc) "aiAgent" = true) ∧
      ¬ (healthGet (checkAllServices svc) "websocket" = true ∧
         healthGet (checkAllServices svc) "aiAgent" = true)) →
      (assessSystemHealth svc).2 = limitedLevel ∧
      limitedLevel.features = ["session-storage", "message-queue"] ∧
      limitedLevel.fallbackActions.lookup "sendMessage" = some queueMessageForLater ∧
      limitedLevel.fallbackActions.lookup "getMessages" = some getCachedMessages) ∧
    ((¬ healthGet (checkAllServices svc) "redis" = true ∨
      (¬ healthGet (checkAllServices svc) "websocket" = true ∧
       ¬ healthGet (checkAllServices svc) "aiAgent" = true)) →
      (assessSystemHealth svc).2 = offlineLevel) := by
  cases hr : healthGet (checkAllServices svc) "redis" <;>
    cases hw : healthGet (checkAllServices svc) "websocket" <;>
      cases ha : healthGet (checkAllServices svc) "aiAgent" <;>
        refine ⟨fun hyp => ?_, fun hyp => ?_, fun hyp => ?_⟩ <;>
          simp_all [assessSystemHealth, assessLevel] <;> exact ⟨rfl, rfl, rfl⟩

/-- Witness for C2: the concrete service whose websocket probe throws while
redis and aiAgent are healthy lands in the limited level. -/
theorem assessSystemHealth_decision_table_witness :
    (healthGet (checkAllServices svcLimited) "redis" = true ∧
     (healthGet (checkAllServices svcLimited) "websocket" = true ∨
      healthGet (checkAllServices svcLimited) "aiAgent" = true) ∧
     ¬ (healthGet (checkAllServices svcLimited) "websocket" = true ∧
        healthGet (checkAllServices svcLimited) "aiAgent" = true)) ∧
    (assessSystemHealth svcLimited).2 = limitedLevel :=
  ⟨by decide,
   ((assessSystemHealth_decision_table svcLimited).2.1 (by decide)).1⟩

/-- C8: checkAllServices returns a complete map, keyed exactly by the
registered probe names, in which every probe that resolves is recorded with
its resolved boolean and every probe that throws is recorded as false; the
function is total, so no probe failure can propagate out of it or out of
assessSystemHealth. -/
theorem checkAllServices_complete_and_safe (svc : GracefulDegradationService) :
    (checkAllServices svc).map Prod.fst = svc.healthChecks.map Prod.fst ∧
    (∀ n p, (n, p) ∈ svc.healthChecks →
      (n, probeRecorded p) ∈ checkAllServices svc) ∧
    (∀ n m, (n, (Except.error m : HealthProbe)) ∈ svc.healthChecks →
      (n, false) ∈ checkAllServices svc) := by
  refine ⟨?_, ?_, ?_⟩
  · rw [checkAllServices, List.map_map]
    rfl
  · intro n p hp
    exact List.mem_map.mpr ⟨(n, p), hp, rfl⟩
  · intro n m hp
    exact List.mem_map.mpr ⟨(n, (Except.error m : HealthProbe)), hp, rfl⟩

/-- Witness for C8: in the concrete service the throwing websocket probe is
recorded as false in the returned map. -/
theorem checkAllServices_complete_and_safe_witness :
    ("websocket", (Except.error "fetch failed" : HealthProbe)) ∈
      svcLimited.healthChecks ∧
    ("websocket", false) ∈ checkAllServices svcLimited :=
  ⟨by rw [svcLimited_healthChecks]; exact .tail _ (.head _),
   (checkAllServices_complete_and_safe svcLimited).2.2 "websocket" "fetch failed"
     (by rw [svcLimited_healthChecks]; exact .tail _ (.head _))⟩

/-- C10: a freshly constructed GracefulDegradationService reports the full
level before any assessment has run: the four full features are usable, with
no fallback actions, regardless of actual dependency health. -/
theorem initService_reports_full :
    getCurrentLevel initService = fullLevel ∧
    fullLevel.level = LevelTag.full ∧
    fullLevel.features = ["websocket", "ai-agent", "session-storage", "real-time"] ∧
    fullLevel.fallbackActions = [] ∧
    canUseFeature initService "websocket" = true ∧
    canUseFeature initService "ai-agent" = true ∧
    canUseFeature initService "session-storage" = true ∧
    canUseFeature initService "real-time" = true ∧
    getFallbackAction initService "sendMessage" = none ∧
    getFallbackAction initService "getMessages" = none := by
  decide

end Degradation

namespace WS

/-- C4, evaluated at the failing trace: after the unsolicited close the
scheduling step does increment retryCount to 1, but the reconnect attempt
itself (timerFire) recreates the connection with retryCount 0 while merely
connecting — a reset outside any successful Connected transition — so after
the second reconnect scheduling the count is again 1 where the claim
requires 2. -/
theorem retryCount_reset_on_every_attempt :
    ((run (create cfgWs) [.apiConnect "s" "u", .transportOpen,
        .transportClose]).connection.map (fun c => c.retryCount) = some 1) ∧
    ((run (create cfgWs) [.apiConnect "s" "u", .transportOpen, .transportClose,
        .timerFire]).connection.map (fun c => c.retryCount) = some 0) ∧
    ((run (create cfgWs) [.apiConnect "s" "u", .transportOpen, .transportClose,
        .timerFire]).connection.map (fun c => c.status) =
      some ConnStatus.connecting) ∧
    ((run (create cfgWs) traceTwoReconnects).connection.map
        (fun c => c.retryCount) = some 1) := by
  decide

/-- C5, evaluated at the failing trace under the plugin configuration
(reconnectAttempts = 1): after four reconnect schedulings the service has
never emitted maxRetriesReached and has yet another reconnect scheduled,
because every attempt resets retryCount to 0 before the next close is
handled, so the give-up guard never fires. -/
theorem maxRetriesReached_never_fires :
    Emitted.maxRetriesReached ∉ (run (create cfgWs1) traceFourFailures).emitted ∧
    (run (create cfgWs1) traceFourFailures).reconnectTimer = some 1000 ∧
    (run (create cfgWs1) traceFourFailures).connection.map
      (fun c => c.status) = some ConnStatus.reconnecting := by
  decide

/-- C9, evaluated at the failing trace: disconnect does clear both timer
handles, but the close event that ws.close() causes the socket to fire still
reaches the attached onclose handler, whose handleReconnection schedules a
fresh reconnect timer — a zombie reconnect after intentional teardown. -/
theorem disconnect_zombie_reconnect :
    ((run (create cfgWs) [.apiConnect "s" "u", .transportOpen,
        .apiDisconnect]).reconnectTimer = none) ∧
    ((run (create cfgWs) [.apiConnect "s" "u", .transportOpen,
        .apiDisconnect]).heartbeatTimer = false) ∧
    ((run (create cfgWs) traceDisconnectThenClose).reconnectTimer = some 1000) ∧
    ((run (create cfgWs) traceDisconnectThenClose).connection.map
      (fun c => c.status) = some ConnStatus.reconnecting) := by
  decide

/-- C7 as amended: whenever sendMessage is called while the socket is absent
or the connection state is not connected, it returns the typed not-connected
error without attempting any send (the state, including the log of sent
payloads, is unchanged); the error is constructed with isRetryable = true,
classified retryable rather than terminal. -/
theorem sendMessage_fails_fast (s : WebSocketService) (content : String)
    (h : s.connection.map (fun c => c.status) ≠ some ConnStatus.connected ∨
      s.wsAttached = false) :
    sendMessage s content = (s, .error WebSocketNotConnectedError) ∧
    (sendMessage s content).1.sent = s.sent ∧
    WebSocketNotConnectedError.isRetryable = true := by
  have hres : sendMessage s content = (s, .error WebSocketNotConnectedError) := by
    rcases h with h | h
    · rw [sendMessage, if_pos (Or.inr h)]
    · rw [sendMessage, if_pos (Or.inl h)]
  exact ⟨hres, by rw [hres], rfl⟩

/-- Witness for the amended C7 on a freshly created, never connected
service. -/
theorem sendMessage_fails_fast_witness :
    ((create cfgWs).connection.map (fun c => c.status) ≠ some ConnStatus.connected ∨
      (create cfgWs).wsAttached = false) ∧
    sendMessage (create cfgWs) "hello" =
      (create cfgWs, .error WebSocketNotConnectedError) :=
  ⟨Or.inl (by decide),
   (sendMessage_fails_fast (create cfgWs) "hello" (Or.inl (by decide))).1⟩

/-- Counterexample to C7 as stated: on a not-connected service the raised
not-connected error carries isRetryable = true, so it is not classified
terminal. -/
theorem sendMessage_error_retryable_counterexample :
    (sendMessage (create cfgWs) "hello").2 = .error WebSocketNotConnectedError ∧
    (sendMessage (create cfgWs) "hello").1 = create cfgWs ∧
    ¬ WebSocketNotConnectedError.isRetryable = false := by
  decide

end WS

namespace CB

/-- C1: every breaker created by CircuitBreakerService.createBreaker, in
whatever state it has reached, rejects every fire call made while it is Open
with the typed breaker-open error, and the wrapped operation is not invoked:
its call count does not increase, whatever outcome the operation would have
had. -/
theorem breaker_open_rejects_without_invoking (svc : CircuitBreakerService)
    (cfg : CircuitBreakerConfig) (b : Breaker)
    (hreach : BreakerReach (serviceCreateBreaker svc cfg).2 b)
    (hopen : b.state = BreakerState.opened) (op : Except String Unit) :
    (fire b op).2 = FireResult.rejectedOpen ∧
    (fire b op).1.opCalls = b.opCalls ∧
    (fire b op).1.state = BreakerState.opened := by
  rw [fire.eq_def, hopen]
  exact ⟨rfl, rfl, rfl⟩

/-- Witness for C1: the concrete breaker tripped by one failing call is
Open, is reachable from createBreaker, and rejects a call whose operation
would have succeeded, leaving the call count at 1. -/
theorem breaker_open_rejects_without_invoking_witness :
    openedBreaker.state = BreakerState.opened ∧
    (fire openedBreaker (.ok ())).2 = FireResult.rejectedOpen ∧
    (fire openedBreaker (.ok ())).1.opCalls = openedBreaker.opCalls :=
  ⟨by decide,
   (breaker_open_rejects_without_invoking { breakers := [] } cfgCB openedBreaker
     (BreakerReach.fireStep _ _ (.error "boom") (BreakerReach.refl _))
     (by decide) (.ok ())).1,
   (breaker_open_rejects_without_invoking { breakers := [] } cfgCB openedBreaker
     (BreakerReach.fireStep _ _ (.error "boom") (BreakerReach.refl _))
     (by decide) (.ok ())).2.1⟩

end CB
